import Mathlib

/-!
Shallow embedding of `src/app.py` of the automated-research-assistant
repository: the conversation state, the two provider gateway helpers
(ask_groq, ask_gemini), the PDF text extractor, the report exporter,
and the Streamlit interaction steps that mutate session state.
-/

set_option maxRecDepth 4000

namespace App

/-- A role-tagged chat message, as stored in st.session_state\x7b"chat_history"\x7d:
a dict with "role" and "content" keys (app.py lines 45, 49, 60, 106). -/
structure Message where
  role : String
  content : String
deriving DecidableEq

/-- Session state: the keys "chat_history" and "qa_list" of
st.session_state (app.py lines 105-109); qa_list holds (question, answer)
tuples appended at line 156. -/
structure SessionState where
  chat_history : List Message
  qa_list : List (String × String)
deriving DecidableEq

/-- The single system message inserted at session start (app.py line 106). -/
def systemMessage : Message :=
  ⟨"system", "You are a helpful research assistant."⟩

/-- Session initialisation (app.py lines 105-109): chat_history starts as the
one-element list holding the system message, qa_list starts empty. -/
def initState : SessionState :=
  ⟨[systemMessage], []⟩

/-- Outcome of one underlying provider SDK call: either the returned
completion text, or a raised exception carried as its message string
(the str(e) of app.py lines 52 and 63). -/
inductive ProviderOutcome where
  | success (output : String)
  | failure (errMsg : String)

/-- The request ask_groq submits to the Groq backend (app.py lines 43-47):
model, messages and the max_tokens bound. -/
structure GroqRequest where
  model : String
  messages : List Message
  max_tokens : Nat

/-- The request ask_gemini submits to the Gemini backend (app.py
lines 57-58): the selected model and the bare prompt, no history. -/
structure GeminiRequest where
  model : String
  prompt : String

/-- The messages payload built by ask_groq (app.py line 45): the full
chat_history with the prompt appended as a user message. -/
def groqRequest (prompt model_choice : String) (st : SessionState) : GroqRequest :=
  ⟨model_choice, st.chat_history ++ [⟨"user", prompt⟩], 800⟩

/-- The payload built by ask_gemini (app.py lines 57-58): only the prompt is
handed to the selected model; the conversation state is not consulted. -/
def geminiRequest (prompt model_choice : String) : GeminiRequest :=
  ⟨model_choice, prompt⟩

/-- The append of app.py lines 49 and 60:
st.session_state["chat_history"].append with role "assistant"; the spec
calls this operation appendAssistantMessage. -/
def appendAssistantMessage (st : SessionState) (text : String) : SessionState :=
  ⟨st.chat_history ++ [⟨"assistant", text⟩], st.qa_list⟩

/-- ask_groq (app.py lines 41-52). The external SDK call is a parameter
mapping the submitted request to an outcome. On success the output is
appended to chat_history as an assistant message and returned; on an
exception the tagged error string is returned and nothing is appended. -/
def ask_groq (prompt model_choice : String)
    (provider : GroqRequest → ProviderOutcome) (st : SessionState) :
    String × SessionState :=
  match provider (groqRequest prompt model_choice st) with
  | ProviderOutcome.success output => (output, appendAssistantMessage st output)
  | ProviderOutcome.failure e => ("⚠️ Groq Error: " ++ e, st)

/-- ask_gemini (app.py lines 55-63). Same shape as ask_groq but the
request holds only the model and the prompt. -/
def ask_gemini (prompt model_choice : String)
    (provider : GeminiRequest → ProviderOutcome) (st : SessionState) :
    String × SessionState :=
  match provider (geminiRequest prompt model_choice) with
  | ProviderOutcome.success output => (output, appendAssistantMessage st output)
  | ProviderOutcome.failure e => ("⚠️ Gemini Error: " ++ e, st)

/-- Python str.startswith, on the underlying character lists. -/
def pyStartsWith (s p : String) : Bool :=
  p.data.isPrefixOf s.data

/-- Helper for pySplit: scan the character list left to right, cutting at
each occurrence of the separator; the fuel argument (instantiated with the
list length) only makes the recursion structural. -/
def pySplitAux (sep : List Char) : Nat → List Char → List Char → List (List Char)
  | _, [], acc => [acc.reverse]
  | 0, s, acc => [acc.reverse ++ s]
  | fuel + 1, c :: rest, acc =>
    if sep.isPrefixOf (c :: rest) then
      acc.reverse :: pySplitAux sep fuel ((c :: rest).drop sep.length) []
    else
      pySplitAux sep fuel rest (c :: acc)

/-- Python str.split with a non-empty separator string. -/
def pySplit (s sep : String) : List String :=
  (pySplitAux sep.data s.data.length s.data []).map (fun l => ⟨l⟩)

/-- Python str.strip: drop leading and trailing whitespace characters. -/
def pyStrip (s : String) : String :=
  ⟨((s.data.dropWhile Char.isWhitespace).reverse.dropWhile Char.isWhitespace).reverse⟩

/-- One uploaded PDF as PyPDF2 exposes it to app.py: the sequence of pages,
each with the result of page.extract_text, which returns text or None. -/
structure PdfDocument where
  pages : List (Option String)

/-- extract_text_from_pdfs (app.py lines 32-38): fold over files then pages,
appending extract_text() or "" for each page, then strip the result. -/
def extract_text_from_pdfs (uploaded_files : List PdfDocument) : String :=
  (uploaded_files.foldl
    (fun text f => f.pages.foldl (fun t p => t ++ p.getD "") text) "" |> pyStrip)

/-- A reportlab flowable as app.py builds them: a Paragraph with a style
name, or a Spacer with width and height. -/
inductive Flowable where
  | paragraph (text : String) (style : String)
  | spacer (w h : Nat)
deriving DecidableEq

/-- add_block (app.py lines 72-78): a bold Heading2 title, a small spacer,
one Normal paragraph per non-blank line of the content, a larger spacer. -/
def add_block (title content : String) : List Flowable :=
  Flowable.paragraph ("<b>" ++ title ++ "</b>") "Heading2"
    :: Flowable.spacer 1 6
    :: ((pySplit content "\n").filter (fun line => pyStrip line ≠ "")).map
        (fun line => Flowable.paragraph line "Normal")
    ++ [Flowable.spacer 1 12]

/-- The history text built at app.py lines 86-89: one "speaker: content"
fragment per message, terminated by a line-break tag, accumulated in order. -/
def hist_text (history : List Message) : String :=
  history.foldl
    (fun acc msg =>
      acc ++ (if msg.role == "user" then "🧑 You" else "🤖 Assistant")
        ++ ": " ++ msg.content ++ "<br/>") ""

/-- export_to_pdf (app.py lines 66-96): the sequence of flowables handed to
doc.build, one optional block per section, guarded by Python truthiness of
the section's source (empty string and empty list are falsy). -/
def export_to_pdf (summary : String) (qa_list : List (String × String))
    (history : List Message) (full_text : String) : List Flowable :=
  (if summary ≠ "" then add_block "📌 SUMMARY" summary else [])
  ++ (if qa_list ≠ [] then
        (qa_list.map (fun p => add_block ("❓ Q: " ++ p.1) ("🤖 A: " ++ p.2))).flatten
      else [])
  ++ (if history ≠ [] then add_block "📝 CONVERSATION HISTORY" (hist_text history) else [])
  ++ (if full_text ≠ "" then add_block "📖 FULL TEXT" full_text else [])

/-- The four display strings of the model selectbox (app.py lines 112-121). -/
def modelOptions : List String :=
  ["Groq - llama-3.3-70b-versatile",
   "Groq - llama-3.1-8b-instant",
   "Gemini - gemini-1.5-flash",
   "Gemini - gemini-1.5-pro"]

/-- The model id part of a display string, model_choice.split(" - ")[1]
(app.py lines 134 and 137). -/
def modelClean (choice : String) : String :=
  ((pySplit choice " - ").get? 1).getD ""

/-- run_model (app.py lines 132-138): dispatch on the display-string prefix;
an unrecognised choice falls through and Python returns None. -/
def run_model (choice : String)
    (groqP : GroqRequest → ProviderOutcome) (geminiP : GeminiRequest → ProviderOutcome)
    (prompt : String) (st : SessionState) : Option (String × SessionState) :=
  if pyStartsWith choice "Groq" then
    some (ask_groq prompt (modelClean choice) groqP st)
  else if pyStartsWith choice "Gemini" then
    some (ask_gemini prompt (modelClean choice) geminiP st)
  else
    none

/-- The prompt the Q&A tab sends (app.py line 155). -/
def askPrompt (pdf_text query : String) : String :=
  "Answer the following question based on the text:\n\nText: " ++ pdf_text
    ++ "\n\nQuestion: " ++ query

/-- One "Get Answer" interaction (app.py lines 153-156): run the model on
the question prompt, then append the (query, answer) pair to qa_list. When
run_model yields nothing (a choice outside the selectbox) no state changes;
the selectbox restricts choices so this branch is unreachable in the app. -/
def askStep (choice query pdf_text : String)
    (groqP : GroqRequest → ProviderOutcome) (geminiP : GeminiRequest → ProviderOutcome)
    (st : SessionState) : SessionState :=
  match run_model choice groqP geminiP (askPrompt pdf_text query) st with
  | some (answer, st') => ⟨st'.chat_history, st'.qa_list ++ [(query, answer)]⟩
  | none => st

/-- Every mutation of session state the app performs: a Groq gateway call
(line 49), a Gemini gateway call (line 60), or the qa_list append of the
"Get Answer" handler (line 156). -/
inductive Step : SessionState → SessionState → Prop where
  | groq (prompt model_choice : String) (provider : GroqRequest → ProviderOutcome)
      (st : SessionState) : Step st (ask_groq prompt model_choice provider st).2
  | gemini (prompt model_choice : String) (provider : GeminiRequest → ProviderOutcome)
      (st : SessionState) : Step st (ask_gemini prompt model_choice provider st).2
  | appendQA (query answer : String) (st : SessionState) :
      Step st ⟨st.chat_history, st.qa_list ++ [(query, answer)]⟩

/-- States reachable from session initialisation through app operations. -/
inductive Reachable : SessionState → Prop where
  | init : Reachable initState
  | step {st st' : SessionState} : Reachable st → Step st st' → Reachable st'

/-- The heading flowable add_block emits for a section title. -/
def sectionHeading (title : String) : Flowable :=
  Flowable.paragraph ("<b>" ++ title ++ "</b>") "Heading2"

/-- Specification form of the ingestor (spec section 4.1), stated in the
spec's own words to be compared with extract_text_from_pdfs: the ordered
concatenation of each document's per-page extracted text, in upload order
then page order, with no separator, empty string for a page whose
extraction yields none, and leading/trailing whitespace trimmed from the
final result. -/
def ingestSpec (files : List PdfDocument) : String :=
  pyStrip (String.join (files.map (fun f => String.join (f.pages.map (fun p => p.getD "")))))

/-- The data of one "Get Answer" interaction: the selected display string,
the typed question, the extracted text in scope, and the two backends live
during that interaction. -/
structure AskInput where
  choice : String
  query : String
  pdf_text : String
  groqP : GroqRequest → ProviderOutcome
  geminiP : GeminiRequest → ProviderOutcome

/-- Run one "Get Answer" interaction from its recorded data. -/
def runAsk (i : AskInput) (st : SessionState) : SessionState :=
  askStep i.choice i.query i.pdf_text i.groqP i.geminiP st

/-- A sequence of "Get Answer" interactions, run left to right. -/
def askMany (l : List AskInput) (st : SessionState) : SessionState :=
  l.foldl (fun s i => runAsk i s) st

/-- Claim C1, amended: a Gateway call (ask_groq or ask_gemini) appends
exactly one assistant message to Conversation State when the provider call
succeeds, the appended content being the returned completion; when the
provider call raises, no message is appended and the tagged error string is
only returned. (The claim as frozen says the error string is appended on
failure; the except branches of app.py lines 51-52 and 62-63 return it
without appending.) -/
theorem C1_amended (prompt model_choice : String)
    (groqP : GroqRequest → ProviderOutcome) (geminiP : GeminiRequest → ProviderOutcome)
    (st : SessionState) :
    ((ask_groq prompt model_choice groqP st).2 =
      match groqP (groqRequest prompt model_choice st) with
      | ProviderOutcome.success output => appendAssistantMessage st output
      | ProviderOutcome.failure _ => st) ∧
    ((ask_gemini prompt model_choice geminiP st).2 =
      match geminiP (geminiRequest prompt model_choice) with
      | ProviderOutcome.success output => appendAssistantMessage st output
      | ProviderOutcome.failure _ => st) ∧
    (∀ text, (appendAssistantMessage st text).chat_history = st.chat_history ++ [⟨"assistant", text⟩]) := by
  refine ⟨?_, ?_, fun text => rfl⟩
  · unfold ask_groq
    cases groqP (groqRequest prompt model_choice st) <;> rfl
  · unfold ask_gemini
    cases geminiP (geminiRequest prompt model_choice) <;> rfl

/-- Claim C1, counterexample: with a provider that raises, ask_groq returns
the tagged error string but Conversation State does not gain an assistant
message, contradicting the claim that exactly one message is appended on
every call. -/
theorem C1_cex :
    (ask_groq "p" "m" (fun _ => ProviderOutcome.failure "boom") initState).1 = "⚠️ Groq Error: boom" ∧
    (ask_groq "p" "m" (fun _ => ProviderOutcome.failure "boom") initState).2.chat_history.length ≠
      initState.chat_history.length + 1 := by
  decide

/-- Claim C3: the complete operation is total at its boundary: for every
provider outcome, ask_groq and ask_gemini return a string, and when the
provider raises the returned string is the exception message prefixed by a
provider-specific tag; the two tags are distinct, identifying which
backend failed. -/
theorem C3_total (prompt model_choice : String)
    (groqP : GroqRequest → ProviderOutcome) (geminiP : GeminiRequest → ProviderOutcome)
    (st : SessionState) :
    ((ask_groq prompt model_choice groqP st).1 =
      match groqP (groqRequest prompt model_choice st) with
      | ProviderOutcome.success output => output
      | ProviderOutcome.failure e => "⚠️ Groq Error: " ++ e) ∧
    ((ask_gemini prompt model_choice geminiP st).1 =
      match geminiP (geminiRequest prompt model_choice) with
      | ProviderOutcome.success output => output
      | ProviderOutcome.failure e => "⚠️ Gemini Error: " ++ e) ∧
    "⚠️ Groq Error: " ≠ "⚠️ Gemini Error: " := by
  refine ⟨?_, ?_, by decide⟩
  · unfold ask_groq
    cases groqP (groqRequest prompt model_choice st) <;> rfl
  · unfold ask_gemini
    cases geminiP (geminiRequest prompt model_choice) <;> rfl

/-- Claim C5: when the Groq provider call succeeds, the submitted request
is the full Conversation State message sequence with the prompt appended
as a user message, capped at 800 generated tokens; the returned text is
appended to Conversation State as an assistant message and returned. -/
theorem C5_groq_success (prompt model_choice : String)
    (groqP : GroqRequest → ProviderOutcome) (st : SessionState) (output : String)
    (h : groqP (groqRequest prompt model_choice st) = ProviderOutcome.success output) :
    groqRequest prompt model_choice st =
      ⟨model_choice, st.chat_history ++ [⟨"user", prompt⟩], 800⟩ ∧
    ask_groq prompt model_choice groqP st =
      (output, ⟨st.chat_history ++ [⟨"assistant", output⟩], st.qa_list⟩) := by
  refine ⟨rfl, ?_⟩
  unfold ask_groq
  rw [h]
  rfl

/-- Claim C5 witness with a stubbed always-succeeding provider. -/
theorem C5_witness :
    (fun _ => ProviderOutcome.success "out") (groqRequest "p" "m" initState) = ProviderOutcome.success "out" ∧
    ask_groq "p" "m" (fun _ => ProviderOutcome.success "out") initState =
      ("out", ⟨initState.chat_history ++ [⟨"assistant", "out"⟩], initState.qa_list⟩) :=
  ⟨rfl, (C5_groq_success "p" "m" (fun _ => ProviderOutcome.success "out") initState "out" rfl).2⟩

/-- Claim C6: when the Gemini provider call succeeds, only the prompt text
is submitted to the selected model (the request carries no message
sequence, and the returned value does not depend on Conversation State);
the returned text is appended as an assistant message and returned. -/
theorem C6_gemini_success (prompt model_choice : String)
    (geminiP : GeminiRequest → ProviderOutcome) (st : SessionState) (output : String)
    (h : geminiP (geminiRequest prompt model_choice) = ProviderOutcome.success output) :
    geminiRequest prompt model_choice = ⟨model_choice, prompt⟩ ∧
    ask_gemini prompt model_choice geminiP st =
      (output, ⟨st.chat_history ++ [⟨"assistant", output⟩], st.qa_list⟩) ∧
    (∀ st₂, (ask_gemini prompt model_choice geminiP st₂).1 =
      (ask_gemini prompt model_choice geminiP st).1) := by
  refine ⟨rfl, ?_, ?_⟩
  · unfold ask_gemini
    rw [h]
    rfl
  · intro st₂
    unfold ask_gemini
    cases geminiP (geminiRequest prompt model_choice) <;> rfl

/-- Claim C6 witness with a stubbed always-succeeding provider. -/
theorem C6_witness :
    (fun _ => ProviderOutcome.success "out") (geminiRequest "p" "m") = ProviderOutcome.success "out" ∧
    ask_gemini "p" "m" (fun _ => ProviderOutcome.success "out") initState =
      ("out", ⟨initState.chat_history ++ [⟨"assistant", "out"⟩], initState.qa_list⟩) :=
  ⟨rfl, (C6_gemini_success "p" "m" (fun _ => ProviderOutcome.success "out") initState "out" rfl).2.1⟩

/-- Claim C9: the Report Exporter is deterministic: two export_to_pdf
calls on identical summary, QAPair sequence, message sequence and full
text produce identical flowable sequences handed to the layout library. -/
theorem C9_deterministic (s₁ s₂ : String) (q₁ q₂ : List (String × String))
    (h₁ h₂ : List Message) (f₁ f₂ : String)
    (hs : s₁ = s₂) (hq : q₁ = q₂) (hh : h₁ = h₂) (hf : f₁ = f₂) :
    export_to_pdf s₁ q₁ h₁ f₁ = export_to_pdf s₂ q₂ h₂ f₂ := by
  rw [hs, hq, hh, hf]

/-- Claim C9 witness at one concrete pair of identical inputs. -/
theorem C9_witness :
    export_to_pdf "s" [("q", "a")] [systemMessage] "t" =
      export_to_pdf "s" [("q", "a")] [systemMessage] "t" :=
  C9_deterministic "s" "s" [("q", "a")] [("q", "a")] [systemMessage] [systemMessage]
    "t" "t" rfl rfl rfl rfl

/-- Folding string append over a list equals prepending the accumulated
prefix to the join of the list. -/
lemma foldl_append_eq_join (l : List String) (t : String) :
    l.foldl (· ++ ·) t = t ++ String.join l := by
  induction l generalizing t with
  | nil => simp [String.join, String.append_empty]
  | cons x xs ih =>
    simp only [List.foldl_cons, String.join]
    rw [ih (t ++ x), ih ("" ++ x), String.empty_append, String.append_assoc]

/-- The inner page fold equals the join of the per-page texts. -/
lemma pages_foldl_eq (ps : List (Option String)) (t : String) :
    ps.foldl (fun t p => t ++ p.getD "") t =
      t ++ String.join (ps.map (fun p => p.getD "")) := by
  rw [← List.foldl_map (fun p : Option String => p.getD "") (· ++ ·), foldl_append_eq_join]

/-- Joining a cons is the head appended to the join of the tail. -/
lemma join_cons (x : String) (xs : List String) :
    String.join (x :: xs) = x ++ String.join xs := by
  show (x :: xs).foldl (· ++ ·) "" = x ++ String.join xs
  rw [List.foldl_cons, foldl_append_eq_join, String.empty_append]

/-- The outer file fold equals the join of the per-file joined texts. -/
lemma files_foldl_eq (files : List PdfDocument) (t : String) :
    files.foldl (fun text f => f.pages.foldl (fun t p => t ++ p.getD "") text) t =
      t ++ String.join (files.map (fun f => String.join (f.pages.map (fun p => p.getD "")))) := by
  induction files generalizing t with
  | nil => simp [String.join, String.append_empty]
  | cons f fs ih =>
    simp only [List.foldl_cons, List.map_cons]
    rw [pages_foldl_eq, ih, join_cons, String.append_assoc]

/-- Claim C4: extract_text_from_pdfs equals the spec-side form ingestSpec:
the concatenation of per-page extracted text in upload order then page
order, no separator, empty string for a page yielding none, trimmed at the
ends; and it is a deterministic pure function of its input. -/
theorem C4_ingest (files : List PdfDocument) :
    extract_text_from_pdfs files = ingestSpec files ∧
    (∀ files₂, files = files₂ → extract_text_from_pdfs files = extract_text_from_pdfs files₂) := by
  constructor
  · unfold extract_text_from_pdfs ingestSpec
    rw [files_foldl_eq, String.empty_append]
  · intro files₂ h
    rw [h]

/-- Claim C4 witness at a concrete one-file input. -/
theorem C4_witness :
    ([⟨[some "  Hello ", none, some "World.  "]⟩] : List PdfDocument) = [⟨[some "  Hello ", none, some "World.  "]⟩] ∧
    extract_text_from_pdfs [⟨[some "  Hello ", none, some "World.  "]⟩] =
      extract_text_from_pdfs [⟨[some "  Hello ", none, some "World.  "]⟩] :=
  ⟨rfl, (C4_ingest [⟨[some "  Hello ", none, some "World.  "]⟩]).2 _ rfl⟩


/-- ask_groq never touches qa_list. -/
lemma ask_groq_qa (prompt model_choice : String) (provider : GroqRequest → ProviderOutcome)
    (st : SessionState) : (ask_groq prompt model_choice provider st).2.qa_list = st.qa_list := by
  unfold ask_groq
  cases provider (groqRequest prompt model_choice st) <;> rfl

/-- ask_gemini never touches qa_list. -/
lemma ask_gemini_qa (prompt model_choice : String) (provider : GeminiRequest → ProviderOutcome)
    (st : SessionState) : (ask_gemini prompt model_choice provider st).2.qa_list = st.qa_list := by
  unfold ask_gemini
  cases provider (geminiRequest prompt model_choice) <;> rfl

/-- Every app operation only appends assistant messages to chat_history. -/
lemma step_chat_shape {st st' : SessionState} (h : Step st st') :
    ∃ new, st'.chat_history = st.chat_history ++ new ∧ ∀ m ∈ new, m.role = "assistant" := by
  cases h with
  | groq prompt model_choice provider st =>
    unfold ask_groq
    cases provider (groqRequest prompt model_choice st) with
    | success output =>
      exact ⟨[⟨"assistant", output⟩], rfl, by intro m hm; simp at hm; rw [hm]⟩
    | failure e => exact ⟨[], by simp, by simp⟩
  | gemini prompt model_choice provider st =>
    unfold ask_gemini
    cases provider (geminiRequest prompt model_choice) with
    | success output =>
      exact ⟨[⟨"assistant", output⟩], rfl, by intro m hm; simp at hm; rw [hm]⟩
    | failure e => exact ⟨[], by simp, by simp⟩
  | appendQA query answer st => exact ⟨[], by simp, by simp⟩

/-- Every app operation leaves qa_list a prefix of its successor. -/
lemma step_qa_prefix {st st' : SessionState} (h : Step st st') :
    st.qa_list <+: st'.qa_list := by
  cases h with
  | groq prompt model_choice provider st => rw [ask_groq_qa]
  | gemini prompt model_choice provider st => rw [ask_gemini_qa]
  | appendQA query answer st => exact List.prefix_append _ _

/-- In every reachable state, chat_history is the initial system message
followed by assistant messages only. -/
lemma reachable_shape {st : SessionState} (h : Reachable st) :
    ∃ rest, st.chat_history = systemMessage :: rest ∧ ∀ m ∈ rest, m.role = "assistant" := by
  induction h with
  | init => exact ⟨[], rfl, by simp⟩
  | step hr hs ih =>
    obtain ⟨rest, hrest, hall⟩ := ih
    obtain ⟨new, hnew, hnewall⟩ := step_chat_shape hs
    refine ⟨rest ++ new, by rw [hnew, hrest]; rfl, ?_⟩
    intro m hm
    rcases List.mem_append.mp hm with hm | hm
    · exact hall m hm
    · exact hnewall m hm

/-- Claim C7: Conversation State starts with exactly one system message;
appendAssistantMessage grows the sequence by exactly one entry leaving all
prior entries unchanged; every operation extends the sequence (prefix
preservation, so nothing is removed, edited or reordered); and every
reachable state still holds exactly one system message, at the head. -/
theorem C7_invariant :
    initState.chat_history = [systemMessage] ∧
    (∀ st text, (appendAssistantMessage st text).chat_history.length = st.chat_history.length + 1 ∧
      (appendAssistantMessage st text).chat_history.take st.chat_history.length = st.chat_history) ∧
    (∀ st st', Step st st' → st.chat_history <+: st'.chat_history) ∧
    (∀ st, Reachable st →
      (st.chat_history.filter (fun m => m.role == "system")).length = 1 ∧
      st.chat_history.head? = some systemMessage) := by
  refine ⟨rfl, ?_, ?_, ?_⟩
  · intro st text
    refine ⟨by simp [appendAssistantMessage], ?_⟩
    show (st.chat_history ++ [(⟨"assistant", text⟩ : Message)]).take st.chat_history.length = st.chat_history
    exact List.take_left _ _
  · intro st st' hstep
    obtain ⟨new, hnew, -⟩ := step_chat_shape hstep
    rw [hnew]
    exact List.prefix_append _ _
  · intro st hr
    obtain ⟨rest, hrest, hall⟩ := reachable_shape hr
    rw [hrest]
    constructor
    · have hfil : rest.filter (fun m => m.role == "system") = [] := by
        rw [List.filter_eq_nil_iff]
        intro m hm
        simp [hall m hm]
      simp [List.filter, systemMessage, hfil]
    · rfl

/-- Claim C7 witness: prefix preservation at a concrete step and the
one-system-message count at the initial state. -/
theorem C7_witness :
    initState.chat_history <+:
      (ask_groq "p" "m" (fun _ => ProviderOutcome.success "out") initState).2.chat_history ∧
    (initState.chat_history.filter (fun m => m.role == "system")).length = 1 :=
  ⟨C7_invariant.2.2.1 initState _ (Step.groq "p" "m" (fun _ => ProviderOutcome.success "out") initState),
   (C7_invariant.2.2.2 initState Reachable.init).1⟩

/-- Claim C10: in every reachable state the stored message sequence is the
single leading system message followed exclusively by assistant messages;
no user-role message ever appears in it. -/
theorem C10_no_user_messages (st : SessionState) (h : Reachable st) :
    (∃ rest, st.chat_history = systemMessage :: rest ∧ ∀ m ∈ rest, m.role = "assistant") ∧
    ∀ m ∈ st.chat_history, m.role ≠ "user" := by
  obtain ⟨rest, hrest, hall⟩ := reachable_shape h
  refine ⟨⟨rest, hrest, hall⟩, ?_⟩
  intro m hm
  rw [hrest] at hm
  rcases List.mem_cons.mp hm with hm | hm
  · rw [hm]
    intro hcontra
    exact absurd hcontra (by decide)
  · rw [hall m hm]
    decide

/-- Claim C10 witness at the initial state. -/
theorem C10_witness :
    (∃ rest, initState.chat_history = systemMessage :: rest ∧ ∀ m ∈ rest, m.role = "assistant") ∧
    ∀ m ∈ initState.chat_history, m.role ≠ "user" :=
  C10_no_user_messages initState Reachable.init


/-- run_model never changes qa_list. -/
lemma run_model_qa {choice : String} {groqP : GroqRequest → ProviderOutcome}
    {geminiP : GeminiRequest → ProviderOutcome} {prompt : String} {st : SessionState}
    {ans : String} {st' : SessionState}
    (h : run_model choice groqP geminiP prompt st = some (ans, st')) :
    st'.qa_list = st.qa_list := by
  unfold run_model at h
  split at h
  · have hpair : (ask_groq prompt (modelClean choice) groqP st) = (ans, st') :=
      Option.some.inj h
    have := congrArg (fun p => p.2.qa_list) hpair
    simp only at this
    rw [← this, ask_groq_qa]
  · split at h
    · have hpair : (ask_gemini prompt (modelClean choice) geminiP st) = (ans, st') :=
        Option.some.inj h
      have := congrArg (fun p => p.2.qa_list) hpair
      simp only at this
      rw [← this, ask_gemini_qa]
    · exact absurd h (by simp)

/-- One "Get Answer" interaction with a selectbox choice appends exactly
one question/answer pair, whatever the provider outcome. -/
lemma askStep_qa_append {choice : String} (hc : choice ∈ modelOptions)
    (query pdf_text : String) (groqP : GroqRequest → ProviderOutcome)
    (geminiP : GeminiRequest → ProviderOutcome) (st : SessionState) :
    ∃ answer, (askStep choice query pdf_text groqP geminiP st).qa_list =
      st.qa_list ++ [(query, answer)] := by
  have hsome : ∃ ans st', run_model choice groqP geminiP (askPrompt pdf_text query) st =
      some (ans, st') := by
    fin_cases hc
    · exact ⟨_, _, if_pos (by decide)⟩
    · exact ⟨_, _, if_pos (by decide)⟩
    · refine ⟨(ask_gemini (askPrompt pdf_text query) (modelClean "Gemini - gemini-1.5-flash") geminiP st).1,
        (ask_gemini (askPrompt pdf_text query) (modelClean "Gemini - gemini-1.5-flash") geminiP st).2, ?_⟩
      unfold run_model
      rw [if_neg (by decide), if_pos (by decide)]
    · refine ⟨(ask_gemini (askPrompt pdf_text query) (modelClean "Gemini - gemini-1.5-pro") geminiP st).1,
        (ask_gemini (askPrompt pdf_text query) (modelClean "Gemini - gemini-1.5-pro") geminiP st).2, ?_⟩
      unfold run_model
      rw [if_neg (by decide), if_pos (by decide)]
  obtain ⟨ans, st', hrun⟩ := hsome
  refine ⟨ans, ?_⟩
  unfold askStep
  rw [hrun]
  simp only
  rw [run_model_qa hrun]

/-- Repeated "Get Answer" interactions grow qa_list by their number. -/
lemma askMany_qa_length (l : List AskInput) (st : SessionState)
    (hl : ∀ i ∈ l, i.choice ∈ modelOptions) :
    (askMany l st).qa_list.length = st.qa_list.length + l.length := by
  induction l generalizing st with
  | nil => rfl
  | cons i rest ih =>
    have hi : i.choice ∈ modelOptions := hl i (List.mem_cons_self i rest)
    obtain ⟨answer, hans⟩ := askStep_qa_append hi i.query i.pdf_text i.groqP i.geminiP st
    show (askMany rest (runAsk i st)).qa_list.length = st.qa_list.length + (rest.length + 1)
    rw [ih (runAsk i st) (fun j hj => hl j (List.mem_cons_of_mem i hj))]
    unfold runAsk
    rw [hans]
    simp [Nat.add_assoc, Nat.add_comm 1 rest.length]

/-- Claim C8: qa_list is append-only (each operation leaves the old list a
prefix, so its length is monotonically non-decreasing); each completed
"ask" interaction appends exactly one question/answer pair, including when
the answer is a Gateway error string; and after N asks its length equals
the initial length plus N. -/
theorem C8_qa_append_only :
    (∀ st st', Step st st' → st.qa_list <+: st'.qa_list) ∧
    (∀ choice, choice ∈ modelOptions → ∀ query pdf_text groqP geminiP st,
      ∃ answer, (askStep choice query pdf_text groqP geminiP st).qa_list =
        st.qa_list ++ [(query, answer)]) ∧
    (∀ l st, (∀ i ∈ l, i.choice ∈ modelOptions) →
      (askMany l st).qa_list.length = st.qa_list.length + l.length) :=
  ⟨fun _ _ h => step_qa_prefix h,
   fun _ hc query pdf_text groqP geminiP st => askStep_qa_append hc query pdf_text groqP geminiP st,
   askMany_qa_length⟩

/-- Claim C8 witness: one concrete ask interaction grows qa_list from the
initial empty list to length one. -/
theorem C8_witness :
    (∀ i ∈ ([⟨"Groq - llama-3.3-70b-versatile", "q", "t",
        fun _ => ProviderOutcome.success "a", fun _ => ProviderOutcome.success "a"⟩] :
        List AskInput), i.choice ∈ modelOptions) ∧
    (askMany [⟨"Groq - llama-3.3-70b-versatile", "q", "t",
        fun _ => ProviderOutcome.success "a", fun _ => ProviderOutcome.success "a"⟩]
      initState).qa_list.length = initState.qa_list.length + 1 := by
  refine ⟨?_, ?_⟩
  · intro i hi
    rw [List.mem_singleton.mp hi]
    decide
  · exact C8_qa_append_only.2.2 _ initState (by
      intro i hi
      rw [List.mem_singleton.mp hi]
      decide)


/-- The section heading is always among the flowables of its own block. -/
lemma heading_mem_add_block_self (t c : String) : sectionHeading t ∈ add_block t c := by
  simp [add_block, sectionHeading]

/-- A heading flowable inside a block must be that block heading: body
paragraphs use the Normal style and spacers are not paragraphs. -/
lemma heading_eq_of_mem_add_block {x t c : String}
    (h : sectionHeading x ∈ add_block t c) :
    "<b>" ++ x ++ "</b>" = "<b>" ++ t ++ "</b>" := by
  simp [add_block, sectionHeading] at h
  exact h


/-- A heading with a different title never occurs in an optional block. -/
lemma heading_not_mem_opt_block {x t : String} {cond : Prop} [Decidable cond] {c : String}
    (hne : "<b>" ++ x ++ "</b>" ≠ "<b>" ++ t ++ "</b>") :
    sectionHeading x ∉ (if cond then add_block t c else []) := by
  split
  · intro hmem
    exact hne (heading_eq_of_mem_add_block hmem)
  · simp

/-- A heading that differs from every question heading never occurs in the
question/answer blocks. -/
lemma heading_not_mem_qa_blocks {x : String} {q : List (String × String)}
    (hne : ∀ a : String, "<b>" ++ x ++ "</b>" ≠ "<b>" ++ ("❓ Q: " ++ a) ++ "</b>") :
    sectionHeading x ∉
      (if q ≠ [] then
        (q.map (fun p => add_block ("❓ Q: " ++ p.1) ("🤖 A: " ++ p.2))).flatten
      else []) := by
  split
  · intro hmem
    obtain ⟨blk, hblk, hmem2⟩ := List.mem_flatten.mp hmem
    obtain ⟨p, hp, rfl⟩ := List.mem_map.mp hblk
    exact hne p.1 (heading_eq_of_mem_add_block hmem2)
  · simp

/-- The summary heading text differs from every question heading text. -/
lemma summary_ne_qa_title (a : String) :
    "<b>" ++ "📌 SUMMARY" ++ "</b>" ≠ "<b>" ++ ("❓ Q: " ++ a) ++ "</b>" := by
  intro h
  have h2 := congrArg String.data h
  simp [String.data_append] at h2

/-- The history heading text differs from every question heading text. -/
lemma history_ne_qa_title (a : String) :
    "<b>" ++ "📝 CONVERSATION HISTORY" ++ "</b>" ≠ "<b>" ++ ("❓ Q: " ++ a) ++ "</b>" := by
  intro h
  have h2 := congrArg String.data h
  simp [String.data_append] at h2

/-- The full-text heading text differs from every question heading text. -/
lemma fulltext_ne_qa_title (a : String) :
    "<b>" ++ "📖 FULL TEXT" ++ "</b>" ≠ "<b>" ++ ("❓ Q: " ++ a) ++ "</b>" := by
  intro h
  have h2 := congrArg String.data h
  simp [String.data_append] at h2


/-- Claim C2, amended: export_to_pdf includes the summary and full-text
headings exactly when those strings are non-empty, includes one heading
per QAPair, and includes the conversation-history heading exactly when the
message sequence is non-empty, so a sequence holding only the initial
system message still yields the history heading; exporting with empty
summary, no QAPairs, an empty message sequence and empty full text yields
a document with no flowables at all. (The claim as frozen required the
history section to be omitted when only the initial system message is
present; app.py line 85 tests mere non-emptiness.) -/
theorem C2_amended (s : String) (q : List (String × String)) (h : List Message) (f : String) :
    (sectionHeading "📌 SUMMARY" ∈ export_to_pdf s q h f ↔ s ≠ "") ∧
    (sectionHeading "📝 CONVERSATION HISTORY" ∈ export_to_pdf s q h f ↔ h ≠ []) ∧
    (sectionHeading "📖 FULL TEXT" ∈ export_to_pdf s q h f ↔ f ≠ "") ∧
    (∀ p ∈ q, sectionHeading ("❓ Q: " ++ p.1) ∈ export_to_pdf s q h f) ∧
    export_to_pdf "" [] [] "" = [] := by
  refine ⟨?_, ?_, ?_, ?_, by decide⟩
  · unfold export_to_pdf
    constructor
    · intro hmem
      rcases List.mem_append.mp hmem with h3 | hD
      · rcases List.mem_append.mp h3 with h2 | hC
        · rcases List.mem_append.mp h2 with hA | hB
          · rcases eq_or_ne s "" with hE | hE
            · rw [hE, if_neg (by simp)] at hA
              simp at hA
            · exact hE
          · exact absurd hB (heading_not_mem_qa_blocks summary_ne_qa_title)
        · exact absurd hC (heading_not_mem_opt_block (by decide))
      · exact absurd hD (heading_not_mem_opt_block (by decide))
    · intro hne
      have hself : sectionHeading "📌 SUMMARY" ∈
          (if s ≠ "" then add_block "📌 SUMMARY" s else []) := by
        rw [if_pos hne]
        exact heading_mem_add_block_self _ _
      exact List.mem_append.mpr (Or.inl (List.mem_append.mpr (Or.inl
        (List.mem_append.mpr (Or.inl hself)))))
  · unfold export_to_pdf
    constructor
    · intro hmem
      rcases List.mem_append.mp hmem with h3 | hD
      · rcases List.mem_append.mp h3 with h2 | hC
        · rcases List.mem_append.mp h2 with hA | hB
          · exact absurd hA (heading_not_mem_opt_block (by decide))
          · exact absurd hB (heading_not_mem_qa_blocks history_ne_qa_title)
        · rcases eq_or_ne h [] with hE | hE
          · rw [hE, if_neg (by simp)] at hC
            simp at hC
          · exact hE
      · exact absurd hD (heading_not_mem_opt_block (by decide))
    · intro hne
      have hself : sectionHeading "📝 CONVERSATION HISTORY" ∈
          (if h ≠ [] then add_block "📝 CONVERSATION HISTORY" (hist_text h) else []) := by
        rw [if_pos hne]
        exact heading_mem_add_block_self _ _
      exact List.mem_append.mpr (Or.inl (List.mem_append.mpr (Or.inr hself)))
  · unfold export_to_pdf
    constructor
    · intro hmem
      rcases List.mem_append.mp hmem with h3 | hD
      · rcases List.mem_append.mp h3 with h2 | hC
        · rcases List.mem_append.mp h2 with hA | hB
          · exact absurd hA (heading_not_mem_opt_block (by decide))
          · exact absurd hB (heading_not_mem_qa_blocks fulltext_ne_qa_title)
        · exact absurd hC (heading_not_mem_opt_block (by decide))
      · rcases eq_or_ne f "" with hE | hE
        · rw [hE, if_neg (by simp)] at hD
          simp at hD
        · exact hE
    · intro hne
      have hself : sectionHeading "📖 FULL TEXT" ∈
          (if f ≠ "" then add_block "📖 FULL TEXT" f else []) := by
        rw [if_pos hne]
        exact heading_mem_add_block_self _ _
      exact List.mem_append.mpr (Or.inr hself)
  · unfold export_to_pdf
    intro p hp
    have hself : sectionHeading ("❓ Q: " ++ p.1) ∈
        add_block ("❓ Q: " ++ p.1) ("🤖 A: " ++ p.2) := heading_mem_add_block_self _ _
    have hflat : sectionHeading ("❓ Q: " ++ p.1) ∈
        (q.map (fun p => add_block ("❓ Q: " ++ p.1) ("🤖 A: " ++ p.2))).flatten :=
      List.mem_flatten.mpr ⟨_, List.mem_map.mpr ⟨p, hp, rfl⟩, hself⟩
    have hB : sectionHeading ("❓ Q: " ++ p.1) ∈
        (if q ≠ [] then
          (q.map (fun p => add_block ("❓ Q: " ++ p.1) ("🤖 A: " ++ p.2))).flatten
        else []) := by
      rw [if_pos (List.ne_nil_of_mem hp)]
      exact hflat
    exact List.mem_append.mpr (Or.inl (List.mem_append.mpr (Or.inl
      (List.mem_append.mpr (Or.inr hB)))))

/-- Claim C2, counterexample: exporting with empty summary, no QAPairs,
empty full text and a message sequence holding only the initial system
message produces a document that does contain the conversation-history
section heading. -/
theorem C2_cex :
    sectionHeading "📝 CONVERSATION HISTORY" ∈ export_to_pdf "" [] [systemMessage] "" := by
  decide

/-- Claim C2 witness: a concrete QAPair whose heading the export contains. -/
theorem C2_witness :
    (("q", "a")) ∈ [(("q", "a"))] ∧
    sectionHeading ("❓ Q: " ++ "q") ∈ export_to_pdf "" [("q", "a")] [] "" :=
  ⟨by decide, (C2_amended "" [("q", "a")] [] "").2.2.2.1 ("q", "a") (by decide)⟩

end App
